import Mathlib

/-!
# Verification of the OPM process-manager supervision core

A shallow embedding, in Lean 4, of the supervision core of the `pmc`
repository (binary name `opm`): the process registry and its lifecycle
operations (`src/src/process/mod.rs`), the dump store
(`src/src/process/dump.rs`), the per-process body of the supervisor loop
(`restart_process` in `src/src/daemon/mod.rs`), the liveness probe
(`is_pid_alive`, `is_process_zombie`), the `list`/`fetch` status
projection, and the agent heartbeat handling
(`src/src/agent/registry.rs`, `src/src/daemon/api/websocket.rs`).

Rust `BTreeMap`/`HashMap` values are modelled as association lists with
insert-or-replace, `u64` counters as `Nat` with explicit reduction
mod `2 ^ 64` where the source increments them, `i64` pids as `Int`
(with the `pid as i32` cast of the kill probe made explicit), and the
operating system (process table, `/proc` reads, spawn results, clocks,
`.env` files) as an explicit oracle record `Sys` threaded through the
functions that perform syscalls. Functions that abort via `crashln!`
(process not found) return `Option`.
-/

set_option autoImplicit false

namespace Opm

universe u v

variable {α : Type u} {β : Type v}

/-- Lookup in an association list (first matching key).  Models
`BTreeMap::get` / `HashMap::get`; the maps produced by the source have
unique keys, for which first-match lookup is exact. -/
def mapLookup [DecidableEq α] (m : List (α × β)) (k : α) : Option β :=
  match m with
  | [] => none
  | (k', v) :: rest => if k' = k then some v else mapLookup rest k

/-- Insert-or-replace in an association list.  Models
`BTreeMap::insert` / `HashMap::insert`. -/
def mapInsert [DecidableEq α] (m : List (α × β)) (k : α) (v : β) : List (α × β) :=
  match m with
  | [] => [(k, v)]
  | (k', v') :: rest =>
      if k' = k then (k', v) :: rest else (k', v') :: mapInsert rest k v

/-- `BTreeMap::extend`: insert every entry of `other` into `m`,
overwriting existing keys. -/
def mapExtend [DecidableEq α] (m other : List (α × β)) : List (α × β) :=
  other.foldl (fun acc kv => mapInsert acc kv.1 kv.2) m

@[simp]
theorem mapLookup_nil [DecidableEq α] (k : α) :
    mapLookup ([] : List (α × β)) k = none := rfl

theorem mapLookup_cons [DecidableEq α] (k' : α) (v : β) (rest : List (α × β)) (k : α) :
    mapLookup ((k', v) :: rest) k = if k' = k then some v else mapLookup rest k := rfl

@[simp]
theorem mapLookup_insert_self [DecidableEq α] (m : List (α × β)) (k : α) (v : β) :
    mapLookup (mapInsert m k v) k = some v := by
  induction m with
  | nil => simp [mapInsert, mapLookup]
  | cons hd tl ih =>
      obtain ⟨k', v'⟩ := hd
      by_cases h : k' = k
      · simp [mapInsert, h, mapLookup]
      · simp [mapInsert, h, mapLookup, ih]

theorem mapLookup_insert_ne [DecidableEq α] (m : List (α × β)) (k k' : α) (v : β)
    (h : k' ≠ k) :
    mapLookup (mapInsert m k v) k' = mapLookup m k' := by
  have hk : ¬ k = k' := fun hk => h hk.symm
  induction m with
  | nil => simp [mapInsert, mapLookup, hk]
  | cons hd tl ih =>
      obtain ⟨k₁, v₁⟩ := hd
      by_cases h₁ : k₁ = k
      · subst h₁
        simp [mapInsert, mapLookup, hk]
      · simp [mapInsert, h₁, mapLookup, ih]

theorem mapLookup_eq_none_of_not_mem_keys [DecidableEq α]
    (m : List (α × β)) (k : α) (h : k ∉ m.map Prod.fst) :
    mapLookup m k = none := by
  induction m with
  | nil => rfl
  | cons hd tl ih =>
      obtain ⟨k', v'⟩ := hd
      simp only [List.map_cons, List.mem_cons] at h
      push_neg at h
      have hne : ¬ k' = k := fun hk => h.1 hk.symm
      simp [mapLookup, hne, ih h.2]

@[simp]
theorem mapExtend_nil [DecidableEq α] (m : List (α × β)) :
    mapExtend m [] = m := rfl

theorem mapExtend_cons [DecidableEq α] (m : List (α × β)) (k : α) (v : β)
    (rest : List (α × β)) :
    mapExtend m ((k, v) :: rest) = mapExtend (mapInsert m k v) rest := rfl

/-- A key absent from `other` keeps its binding from `m` after `extend`. -/
theorem mapLookup_extend_of_none [DecidableEq α] (m other : List (α × β)) (k : α)
    (h : mapLookup other k = none) :
    mapLookup (mapExtend m other) k = mapLookup m k := by
  induction other generalizing m with
  | nil => rfl
  | cons hd tl ih =>
      obtain ⟨k₁, v₁⟩ := hd
      rw [mapLookup_cons] at h
      by_cases h₁ : k₁ = k
      · simp [h₁] at h
      · rw [mapExtend_cons, ih (mapInsert m k₁ v₁) (by simpa [h₁] using h),
          mapLookup_insert_ne m k₁ k v₁ (fun hk => h₁ hk.symm)]

/-- A key bound in `other` (whose keys are duplicate-free, as for any map
iterated out of a `BTreeMap`) gets `other`'s value after `extend`. -/
theorem mapLookup_extend_of_some [DecidableEq α] (m other : List (α × β)) (k : α) (v : β)
    (hnd : (other.map Prod.fst).Nodup) (h : mapLookup other k = some v) :
    mapLookup (mapExtend m other) k = some v := by
  induction other generalizing m with
  | nil => simp [mapLookup] at h
  | cons hd tl ih =>
      obtain ⟨k₁, v₁⟩ := hd
      simp only [List.map_cons, List.nodup_cons] at hnd
      rw [mapLookup_cons] at h
      by_cases h₁ : k₁ = k
      · subst h₁
        rw [if_pos rfl] at h
        injection h with h
        rw [← h]
        rw [mapExtend_cons,
          mapLookup_extend_of_none (mapInsert m k₁ v₁) tl k₁
            (mapLookup_eq_none_of_not_mem_keys tl k₁ hnd.1),
          mapLookup_insert_self]
      · rw [if_neg h₁] at h
        rw [mapExtend_cons]
        exact ih (mapInsert m k₁ v₁) hnd.2 h

/-- `extend` never erases a binding: a key bound in `m` is still bound
afterwards. -/
theorem mapLookup_extend_isSome [DecidableEq α] (m other : List (α × β)) (k : α)
    (h : (mapLookup m k).isSome) :
    (mapLookup (mapExtend m other) k).isSome := by
  induction other generalizing m with
  | nil => exact h
  | cons hd tl ih =>
      obtain ⟨k₁, v₁⟩ := hd
      rw [mapExtend_cons]
      refine ih (mapInsert m k₁ v₁) ?_
      by_cases h₁ : k₁ = k
      · subst h₁; simp
      · rwa [mapLookup_insert_ne m k₁ k v₁ (fun hk => h₁ hk.symm)]

/-! ## Data model (`src/src/process/mod.rs`) -/

/-- `2 ^ 64`; `u64` counters are reduced modulo this wherever the source
increments or sums them. -/
def U64 : Nat := 2 ^ 64

/-- `struct Crash { crashed: bool, value: u64 }`. -/
structure Crash where
  crashed : Bool
  value : Nat
deriving Repr, DecidableEq

/-- `struct Watch { enabled: bool, path: String, hash: String }`. -/
structure Watch where
  enabled : Bool
  path : String
  hash : String
deriving Repr, DecidableEq

/-- `struct Process` from `src/src/process/mod.rs` (lines 142-165).
`started` is the `DateTime<Utc>` timestamp in milliseconds, `env` the
`BTreeMap<String, String>` overlay, `path` the `PathBuf` working
directory rendered as a string. -/
structure Process where
  id : Nat
  pid : Int
  shell_pid : Option Int
  env : List (String × String)
  name : String
  path : String
  script : String
  restarts : Nat
  running : Bool
  crash : Crash
  watch : Watch
  children : List Int
  started : Int
  max_memory : Nat
deriving Repr, DecidableEq

/-- `struct Remote` (address/token; the `RemoteConfig` fetched over HTTP
is irrelevant to the claims and omitted).  The field is `#[serde(skip)]`
in the source, so it never reaches the dump file. -/
structure Remote where
  address : String
  token : Option String
deriving Repr, DecidableEq

/-- `struct Runner { id: Id, remote: Option<Remote>, list: BTreeMap<usize, Process> }`.
The `Id` allocator (module `process::id`, not part of the snapshot) is
held as its counter value; no claim depends on its internals. -/
structure Runner where
  id : Nat
  remote : Option Remote
  list : List (Nat × Process)
deriving Repr, DecidableEq

/-- `struct MemoryInfo { rss: u64, vms: u64 }`. -/
structure MemoryInfo where
  rss : Nat
  vms : Nat
deriving Repr, DecidableEq

/-! ## The operating-system oracle

Everything the supervision core observes from the OS in one record:
the process table (`procExists` holds for live *and* zombie entries,
`zombie` for the zombies among them), process-group existence for the
negative-pid forms of `kill`, the `find_children` enumeration, per-pid
memory readings, content hashes of watched paths, the wall clock, and
the outcome of `set_current_dir` / `process_run` / `.env` loading used
by a restart. -/
structure Sys where
  procExists : Int → Bool
  zombie : Int → Bool
  groupAlive : Int → Bool
  childrenOf : Int → List Int
  memOf : Int → Option (Nat × Nat)
  hashOf : String → String
  now : Int
  setCwdOk : Bool
  runResult : Option (Int × Option Int)
  sysEnv : List (String × String)
  dotenvAt : String → List (String × String)

/-- Two's-complement truncation of an `i64` value to `i32`, as in the
source's `pid as i32`. -/
def wrap32 (x : Int) : Int := (x + 2 ^ 31) % 2 ^ 32 - 2 ^ 31

/-- Success of the POSIX `kill(p, 0)` probe as issued by the manager
process: a positive pid succeeds iff the process table has an entry
(running or zombie); pid `0` signals the caller's own process group,
which always exists; pid `-1` signals everything the caller may signal;
`p < -1` succeeds iff process group `-p` exists. -/
def killProbe (sys : Sys) (p : Int) : Bool :=
  if 0 < p then sys.procExists p
  else if p = 0 then true
  else if p = -1 then true
  else sys.groupAlive (-p)

/-- `is_pid_alive` from `src/src/process/mod.rs` lines 290-294: exactly
`unsafe { libc::kill(pid as i32, 0) == 0 }` — no guard for `pid ≤ 0`
and no zombie handling. -/
def is_pid_alive (sys : Sys) (pid : Int) : Bool :=
  killProbe sys (wrap32 pid)

/-- `is_process_zombie` from `src/src/process/unix/process_info.rs`
lines 199-288 (Linux path): reads the state character from
`/proc/<pid>/stat`, returning `true` iff it is `Z` and `false` whenever
the stat file is unreadable.  The function is never called outside its
own unit tests. -/
def is_process_zombie (sys : Sys) (pid : Int) : Bool :=
  sys.procExists pid && sys.zombie pid

/-- The liveness predicate the specification describes: alive iff
`pid > 0`, the process exists, and it is not a zombie.  Declared only to
compare the source's `is_pid_alive` against the spec's words. -/
def spec_alive (sys : Sys) (pid : Int) : Bool :=
  decide (0 < pid) && sys.procExists pid && !(sys.zombie pid)

/-! ## Lifecycle operations (`impl Runner`)

`kill_children`, `process_stop` and `wait_for_process_termination` only
signal the OS and are ignored by the registry state; operations that
reach `crashln!` (process id not found) return `none`. -/

/-- `Runner::stop` (lines 795-824): on a remote registry the call is
forwarded over HTTP and local state is untouched; locally, after
signalling, it sets `running=false`, `crash={false,0}`, `children=[]`
and leaves every other field (notably `pid`) as it was.  It does not
save. -/
def Runner.stop (r : Runner) (id : Nat) : Option Runner :=
  match r.remote with
  | some _ => some r
  | none =>
    match mapLookup r.list id with
    | none => none
    | some p =>
        some { r with list := (mapInsert r.list id
          { p with running := false,
                   crash := { crashed := false, value := 0 },
                   children := [] }) }

/-- `Runner::restart` (lines 430-544).  Locally: increment `restarts`
first; kill children and the old payload (OS-only); on
`set_current_dir` failure or `process_run` failure set `running=false`,
`children=[]`, `crash.crashed=true` and bump `crash.value` only when
`dead`; on success install the new pids, `running=true`, `started=now`,
`crash.crashed=false`, extend the stored env with the current system
env overridden by `.env`, and zero `crash.value` only when `not dead`. -/
def Runner.restart (r : Runner) (sys : Sys) (id : Nat) (dead : Bool) : Option Runner :=
  match r.remote with
  | some _ => some r
  | none =>
    match mapLookup r.list id with
    | none => none
    | some p =>
      let p1 := { p with restarts := (p.restarts + 1) % U64 }
      let failed : Process :=
        { p1 with running := false,
                  children := [],
                  crash := { crashed := true,
                             value := if dead then (p1.crash.value + 1) % U64
                                      else p1.crash.value } }
      if sys.setCwdOk = false then
        some { r with list := mapInsert r.list id failed }
      else
        match sys.runResult with
        | none => some { r with list := mapInsert r.list id failed }
        | some (newPid, shellPid) =>
          let updatedEnv := mapExtend sys.sysEnv (sys.dotenvAt p.path)
          some { r with list := (mapInsert r.list id
            { p1 with pid := newPid,
                      shell_pid := shellPid,
                      running := true,
                      children := [],
                      started := sys.now,
                      crash := { crashed := false,
                                 value := if dead then p1.crash.value else 0 },
                      env := mapExtend p1.env updatedEnv }) }

/-- `Runner::set_env` (lines 764-767): `self.process(id).env.extend(env)`.
There is no remote branch in the source. -/
def Runner.set_env (r : Runner) (id : Nat) (env : List (String × String)) : Option Runner :=
  match mapLookup r.list id with
  | none => none
  | some p =>
      some { r with list := mapInsert r.list id { p with env := mapExtend p.env env } }

/-- `Runner::clear_env` (lines 769-783): remote forwards; locally the
overlay becomes the empty map. -/
def Runner.clear_env (r : Runner) (id : Nat) : Option Runner :=
  match r.remote with
  | some _ => some r
  | none =>
    match mapLookup r.list id with
    | none => none
    | some p => some { r with list := mapInsert r.list id { p with env := [] } }

/-- `Runner::set_children` (lines 785-788). -/
def Runner.set_children (r : Runner) (id : Nat) (children : List Int) : Option Runner :=
  match mapLookup r.list id with
  | none => none
  | some p => some { r with list := mapInsert r.list id { p with children := children } }

/-- In-place field edit through `Runner::process(id)` (`get_mut`): the
pattern `let process = runner.process(id); process.f = v;` used by the
supervisor loop.  Unknown ids leave the registry unchanged (the
supervisor only uses it on ids it has just looked up). -/
def Runner.modifyProc (r : Runner) (id : Nat) (f : Process → Process) : Runner :=
  match mapLookup r.list id with
  | none => r
  | some p => { r with list := mapInsert r.list id (f p) }

theorem modifyProc_lookup_self (r : Runner) (id : Nat) (p : Process)
    (f : Process → Process) (h : mapLookup r.list id = some p) :
    mapLookup (r.modifyProc id f).list id = some (f p) := by
  simp [Runner.modifyProc, h]

/-! ## Resource probes and the `fetch` projection -/

/-- `get_process_memory_with_children` (lines 1253-1278): parent memory
via the native probe, plus the sum over `process_find_children(pid)`,
skipping children whose probe fails; `u64` sums. -/
def get_process_memory_with_children (sys : Sys) (pid : Int) : Option MemoryInfo :=
  match sys.memOf pid with
  | none => none
  | some parent =>
    let t := (sys.childrenOf pid).foldl
      (fun acc c =>
        match sys.memOf c with
        | some m => ((acc.1 + m.1) % U64, (acc.2 + m.2) % U64)
        | none => acc) (0, 0)
    some { rss := (parent.1 + t.1) % U64, vms := (parent.2 + t.2) % U64 }

/-- `helpers::format_duration` (`src/src/helpers.rs` lines 36-46) applied
to `now` and a start timestamp, both in milliseconds; `num_seconds`
truncates toward zero like `Int.tdiv`. -/
def formatDuration (now started : Int) : String :=
  let s := Int.tdiv (now - started) 1000
  if s ≥ 86400 then toString (Int.tdiv s 86400) ++ "d"
  else if s ≥ 3600 then toString (Int.tdiv s 3600) ++ "h"
  else if s ≥ 60 then toString (Int.tdiv s 60) ++ "m"
  else toString s ++ "s"

/-- The fields of `ProcessItem` relevant to the claims; the `cpu` and
`mem` strings are floating-point renderings outside the embedding. -/
structure ProcessItem where
  pid : Int
  id : Nat
  name : String
  restarts : Nat
  status : String
  uptime : String
  watch_path : String
  start_time : Int
deriving Repr, DecidableEq

/-- The per-entry body of `Runner::fetch` (lines 906-985): `status` is
`online` iff `item.running && is_pid_alive(item.pid)`, else `crashed`
when `running` (dead pid) or when `crash.crashed`, else `stopped`;
`uptime` counts only for `online` and is `"0s"` otherwise. -/
def fetchItem (sys : Sys) (id : Nat) (item : Process) : ProcessItem :=
  let process_actually_running := item.running && is_pid_alive sys item.pid
  let status :=
    if process_actually_running then "online"
    else if item.running then "crashed"
    else if item.crash.crashed then "crashed"
    else "stopped"
  let uptime :=
    if process_actually_running then formatDuration sys.now item.started else "0s"
  { pid := item.pid, id := id, name := item.name, restarts := item.restarts,
    status := status, uptime := uptime, watch_path := item.watch.path,
    start_time := item.started }

/-- `Runner::fetch`: map `fetchItem` over the registry entries. -/
def Runner.fetch (r : Runner) (sys : Sys) : List ProcessItem :=
  r.list.map (fun x => fetchItem sys x.1 x.2)

/-! ## The supervisor tick (`restart_process`, `src/src/daemon/mod.rs` 55-230) -/

/-- `PathBuf::join` for the watched path (relative case, the one the
supervisor uses). -/
def pathJoin (a b : String) : String := a ++ "/" ++ b

/-- Effects the per-process tick body performs besides mutating the
registry snapshot: `runner.save()` calls, `runner.stop(id)` calls, and
`runner.restart(id, dead, ..)` calls, in program order. -/
inductive Action where
  | save
  | stopCall
  | restartCall (dead : Bool)
deriving Repr, DecidableEq

/-- The loop body of `restart_process` for one process id (daemon/mod.rs
lines 87-228), acting on a freshly loaded runner `r0`:
1. reconcile children and persist when they changed and are non-empty;
2. memory enforcement: when `running`, `max_memory > 0` and the
   aggregate rss of the monitored tree exceeds the limit, `stop`,
   `save`, and continue;
3. watch reload: when `running` and watching and the content hash
   changed, `restart(id, dead=false)`, `save`, and continue;
4. liveness via `is_pid_alive`; a stable process (`alive ∧ running ∧
   crash.value > 0 ∧ uptime ≥ 1 s`) has `crash.crashed` cleared, `save`;
5. when not alive: zero a positive pid; if `running` and not yet
   flagged `crashed`, increment `crash.value`, latch `crashed`, and
   either give up (`running := false`) when the new count exceeds
   `max_restarts` or leave it for the next cycle; if already flagged,
   `restart(id, dead=true)`; in all three cases `save`.  If not
   `running`, just `save`. -/
def tickProcess (sys : Sys) (cfgRestarts : Nat) (r0 : Runner) (id : Nat) :
    Runner × List Action :=
  match mapLookup r0.list id with
  | none => (r0, [])
  | some item =>
    let children := sys.childrenOf item.pid
    let st1 : Runner × List Action :=
      if children ≠ [] ∧ children ≠ item.children then
        ((r0.set_children id children).getD r0, [Action.save])
      else (r0, [])
    let r1 := st1.1
    let memExceeded : Bool :=
      item.running && decide (0 < item.max_memory) &&
        (match get_process_memory_with_children sys (item.shell_pid.getD item.pid) with
         | some mi => decide (item.max_memory < mi.rss)
         | none => false)
    if memExceeded then
      ((r1.stop id).getD r1, st1.2 ++ [Action.stopCall, Action.save])
    else
      let watchTriggered : Bool :=
        item.running && item.watch.enabled &&
          decide (sys.hashOf (pathJoin item.path item.watch.path) ≠ item.watch.hash)
      if watchTriggered then
        ((r1.restart sys id false).getD r1,
          st1.2 ++ [Action.restartCall false, Action.save])
      else
        let process_alive := is_pid_alive sys item.pid
        let stable : Bool :=
          process_alive && item.running && decide (0 < item.crash.value) &&
            decide (1 ≤ Int.tdiv (sys.now - item.started) 1000)
        let st2 : Runner × List Action :=
          if stable then
            (r1.modifyProc id
              (fun p => { p with crash := { p.crash with crashed := false } }),
             st1.2 ++ [Action.save])
          else (r1, st1.2)
        if process_alive then st2
        else
          let r3 :=
            if 0 < item.pid then st2.1.modifyProc id (fun p => { p with pid := 0 })
            else st2.1
          if item.running then
            if item.crash.crashed = false then
              let r4 := r3.modifyProc id
                (fun p => { p with crash :=
                  { crashed := true, value := (p.crash.value + 1) % U64 } })
              let crash_count :=
                match mapLookup r4.list id with
                | some p => p.crash.value
                | none => 0
              if cfgRestarts < crash_count then
                (r4.modifyProc id (fun p => { p with running := false }),
                 st2.2 ++ [Action.save])
              else
                (r4, st2.2 ++ [Action.save])
            else
              ((r3.restart sys id true).getD r3,
               st2.2 ++ [Action.restartCall true, Action.save])
          else
            (r3, st2.2 ++ [Action.save])

/-- Iterating the per-process tick body over successive supervisor
cycles. -/
def tickIter (sys : Sys) (cfgRestarts : Nat) (id : Nat) : Nat → Runner → Runner
  | 0, r => r
  | n + 1, r => tickIter sys cfgRestarts id n (tickProcess sys cfgRestarts r id).1

/-! ## Dump store (`src/src/process/dump.rs`) -/

/-- Contents of the dump file: either bytes that `ron` fails to parse,
or a serialized `Runner`.  Only `id` and `list` are serialized — the
`remote` field is `#[serde(skip)]` and deserializes to `None`. -/
inductive DumpFile where
  | corrupt
  | data (id : Nat) (list : List (Nat × Process))
deriving Repr, DecidableEq

/-- The slice of the filesystem the dump store touches: the dump file
itself and the quarantine backups next to it. -/
structure FS where
  dump : Option DumpFile
  backups : List (String × DumpFile)
deriving Repr, DecidableEq

/-- The `global!("opm.dump")` path, abstracted to its basename. -/
def dumpPath : String := "process.dump"

/-- A fresh `Runner { id: Id::new(0), list: BTreeMap::new(), remote: None }`. -/
def freshRunner : Runner := { id := 0, remote := none, list := [] }

/-- `dump::write` (lines 105-122): serialize deterministically and write
the file in one step. -/
def dump_write (r : Runner) (fs : FS) : FS :=
  { fs with dump := some (DumpFile.data r.id r.list) }

/-- `dump::read` (lines 35-88).  `ts` is the formatted
`Utc::now()` timestamp of the backup name; `renameOk` and `copyRemoveOk`
are the outcomes of `fs::rename` and of the `fs::copy` + `fs::remove_file`
fallback when the read path has to quarantine a corrupted file.  Returns
the runner together with the filesystem after the call. -/
def dump_read (fs : FS) (ts : String) (renameOk copyRemoveOk : Bool) :
    Runner × FS :=
  match fs.dump with
  | none => (freshRunner, dump_write freshRunner fs)
  | some (DumpFile.data i l) => ({ id := i, remote := none, list := l }, fs)
  | some DumpFile.corrupt =>
    let backupPath := dumpPath ++ ".corrupted." ++ ts
    let fs1 :=
      if renameOk then
        { dump := none, backups := (backupPath, DumpFile.corrupt) :: fs.backups }
      else if copyRemoveOk then
        { dump := none, backups := (backupPath, DumpFile.corrupt) :: fs.backups }
      else fs
    (freshRunner, dump_write freshRunner fs1)

/-! ## Agent registry and heartbeat protocol
(`src/src/agent/registry.rs`, `src/src/daemon/api/websocket.rs`) -/

/-- `enum AgentStatus`. -/
inductive AgentStatus where
  | Online
  | Offline
  | Connecting
  | Reconnecting
deriving Repr, DecidableEq

/-- `enum ConnectionType`. -/
inductive ConnectionType where
  | In
  | Out
deriving Repr, DecidableEq

/-- `struct AgentInfo`; `SystemTime` values in seconds since the epoch
(the wire serializer's unit). -/
structure AgentInfo where
  id : String
  name : String
  hostname : Option String
  status : AgentStatus
  connection_type : ConnectionType
  last_seen : Nat
  connected_at : Nat
  api_endpoint : Option String
deriving Repr, DecidableEq

/-- Server-side `HashMap<String, AgentInfo>` of connected agents. -/
abbrev AgentReg : Type := List (String × AgentInfo)

/-- `AgentRegistry::register` (registry.rs lines 27-48): insert or
replace; the connect notification is fire-and-forget. -/
def register (reg : AgentReg) (info : AgentInfo) : AgentReg :=
  mapInsert reg info.id info

/-- `AgentRegistry::update_heartbeat` as written in registry.rs lines
82-87: stamp `last_seen = now` when the id is present.  The source
returns `()` — it reports nothing about whether the id was known, even
though its caller in websocket.rs line 109 tests the call's result as a
`bool`. -/
def update_heartbeat (reg : AgentReg) (id : String) (now : Nat) : AgentReg :=
  match mapLookup reg id with
  | some a => mapInsert reg id { a with last_seen := now }
  | none => reg

/-- `Response { success, message }` from the `AgentMessage` set. -/
structure Response where
  success : Bool
  message : String
deriving Repr, DecidableEq

/-- The `Heartbeat` arm of `handle_agent_connection` (websocket.rs lines
106-133): the source branches on `registry.update_heartbeat(&id)` used
as a `bool`; the condition that call checks is presence of the id, which
is what the branch is modelled on.  Returns the registry, the `Response`
sent back, and whether the connection is closed (`break`). -/
def handleHeartbeat (reg : AgentReg) (id : String) (now : Nat) :
    AgentReg × Response × Bool :=
  if (mapLookup reg id).isSome then
    (update_heartbeat reg id now,
     { success := true, message := "Heartbeat received" }, false)
  else
    (reg, { success := false, message := "Agent not found" }, true)

/-- `pat` occurs as a substring of `s`. -/
def hasSubstring (s pat : String) : Prop :=
  ∃ a b, s = a ++ pat ++ b

/-! ## Behaviour of one supervisor tick -/

/-- Fresh-crash detection: a process that is supposed to run, is not
flagged crashed, and whose pid fails the probe, gets its crash counter
incremented and the `crashed` flag latched in that tick; the tick gives
up (`running := false`) exactly when the new count exceeds
`max_restarts`; it persists, and performs no restart and no stop call.
The hypotheses pin the earlier tick steps: children already reconciled,
no memory limit, and no watch. -/
theorem tick_crash_detect (sys : Sys) (cfg : Nat) (r : Runner) (id : Nat) (p : Process)
    (hp : mapLookup r.list id = some p)
    (hrun : p.running = true) (hcr : p.crash.crashed = false)
    (halive : is_pid_alive sys p.pid = false)
    (hch : sys.childrenOf p.pid = p.children)
    (hmem : p.max_memory = 0)
    (hw : p.watch.enabled = false) :
    ∃ p', mapLookup (tickProcess sys cfg r id).1.list id = some p' ∧
      p'.crash.value = (p.crash.value + 1) % U64 ∧
      p'.crash.crashed = true ∧
      p'.restarts = p.restarts ∧
      p'.pid = (if 0 < p.pid then 0 else p.pid) ∧
      p'.running = (if cfg < (p.crash.value + 1) % U64 then false else true) ∧
      p'.children = p.children ∧
      p'.env = p.env ∧
      p'.started = p.started ∧
      (tickProcess sys cfg r id).2 = [Action.save] := by
  by_cases hpid : 0 < p.pid <;>
    by_cases hcfg : cfg < (p.crash.value + 1) % U64 <;>
      simp [tickProcess, hp, hrun, hcr, halive, hch, hmem, hw, hpid, hcfg,
        Runner.modifyProc, mapLookup_insert_self]

/-- `Runner::restart` increments `restarts` in every outcome: the
counter reflects the attempt whether the respawn succeeds or fails. -/
theorem restart_increments_restarts (r : Runner) (sys : Sys) (id : Nat) (p : Process)
    (dead : Bool) (hrem : r.remote = none) (hp : mapLookup r.list id = some p) :
    ∃ r', r.restart sys id dead = some r' ∧
      ∃ p', mapLookup r'.list id = some p' ∧
        p'.restarts = (p.restarts + 1) % U64 := by
  cases hsc : sys.setCwdOk <;>
    rcases hrr : sys.runResult with - | ⟨npid, spid⟩ <;>
      simp [Runner.restart, hrem, hp, hsc, hrr, mapLookup_insert_self]

/-- Retry tick: a process that is supposed to run, is already flagged
crashed, and is still dead, gets the crash-restart (`dead=true`) in this
tick — `restart` is called, `restarts` is incremented, and the tick
persists. -/
theorem tick_crash_retry (sys : Sys) (cfg : Nat) (r : Runner) (id : Nat) (p : Process)
    (hrem : r.remote = none)
    (hp : mapLookup r.list id = some p)
    (hrun : p.running = true) (hcr : p.crash.crashed = true)
    (halive : is_pid_alive sys p.pid = false)
    (hch : sys.childrenOf p.pid = p.children)
    (hmem : p.max_memory = 0)
    (hw : p.watch.enabled = false) :
    ∃ p', mapLookup (tickProcess sys cfg r id).1.list id = some p' ∧
      p'.restarts = (p.restarts + 1) % U64 ∧
      (tickProcess sys cfg r id).2 = [Action.restartCall true, Action.save] := by
  by_cases hpid : 0 < p.pid <;>
    cases hsc : sys.setCwdOk <;>
      rcases hrr : sys.runResult with - | ⟨npid, spid⟩ <;>
        simp [tickProcess, Runner.restart, Runner.modifyProc, hrem, hp, hrun, hcr,
          halive, hch, hmem, hw, hpid, hsc, hrr, mapLookup_insert_self]

/-- A stopped process (`running = false`) is inert under the supervisor:
whatever the OS looks like, a tick never calls `stop` or `restart` on
it, keeps it in the registry, and leaves `restarts`, the whole `crash`
record, `running`, and the environment overlay untouched. -/
theorem tick_stopped (sys : Sys) (cfg : Nat) (r : Runner) (id : Nat) (p : Process)
    (hp : mapLookup r.list id = some p) (hrun : p.running = false) :
    ∃ p', mapLookup (tickProcess sys cfg r id).1.list id = some p' ∧
      p'.restarts = p.restarts ∧ p'.crash = p.crash ∧ p'.running = false ∧
      p'.env = p.env ∧ p'.max_memory = p.max_memory ∧
      ∀ a ∈ (tickProcess sys cfg r id).2, a = Action.save := by
  by_cases hc1 : sys.childrenOf p.pid = [] <;>
    by_cases hc2 : sys.childrenOf p.pid = p.children <;>
      by_cases ha : is_pid_alive sys p.pid <;>
        by_cases hpid : 0 < p.pid <;>
          simp [tickProcess, Runner.set_children, Runner.modifyProc, hp, hrun,
            hc1, hc2, ha, hpid, mapLookup_insert_self]

/-- Memory enforcement tick: a running process over its memory ceiling
is stopped — afterwards `running = false`, `crashed = false`,
`crash.value = 0`, `children = []`, and the pid and `restarts` keep
their values; the tick performs a stop and no restart. -/
theorem tick_memstop (sys : Sys) (cfg : Nat) (r : Runner) (id : Nat) (p : Process)
    (mi : MemoryInfo)
    (hrem : r.remote = none)
    (hp : mapLookup r.list id = some p)
    (hrun : p.running = true) (hmm : 0 < p.max_memory)
    (hmi : get_process_memory_with_children sys (p.shell_pid.getD p.pid) = some mi)
    (hrss : p.max_memory < mi.rss) :
    ∃ p', mapLookup (tickProcess sys cfg r id).1.list id = some p' ∧
      p'.running = false ∧ p'.crash.crashed = false ∧ p'.crash.value = 0 ∧
      p'.children = [] ∧ p'.pid = p.pid ∧ p'.restarts = p.restarts ∧
      p'.env = p.env ∧
      Action.stopCall ∈ (tickProcess sys cfg r id).2 ∧
      ∀ d, Action.restartCall d ∉ (tickProcess sys cfg r id).2 := by
  by_cases hc1 : sys.childrenOf p.pid = [] <;>
    by_cases hc2 : sys.childrenOf p.pid = p.children <;>
      simp [tickProcess, Runner.set_children, Runner.stop, Runner.modifyProc, hrem,
        hp, hrun, hmm, hmi, hrss, hc1, hc2, mapLookup_insert_self]

/-- Iterated inertia of a stopped process: helper for the durability
claim, by induction over supervisor cycles from `tick_stopped`. -/
theorem tickIter_stopped (sys : Sys) (cfg : Nat) (id : Nat) (n : Nat) :
    ∀ (r : Runner) (p : Process), mapLookup r.list id = some p → p.running = false →
      ∃ p', mapLookup (tickIter sys cfg id n r).list id = some p' ∧
        p'.running = false ∧ p'.restarts = p.restarts ∧ p'.crash = p.crash := by
  induction n with
  | zero => exact fun r p hp hrun => ⟨p, hp, hrun, rfl, rfl⟩
  | succ n ih =>
      intro r p hp hrun
      obtain ⟨p', h1, h2, h3, h4, _, _, _⟩ := tick_stopped sys cfg r id p hp hrun
      obtain ⟨p'', g1, g2, g3, g4⟩ := ih (tickProcess sys cfg r id).1 p' h1 h4
      exact ⟨p'', g1, g2, g3.trans h2, g4.trans h3⟩

/-! ## Concrete scenarios used by the counterexamples and witnesses -/

/-- A minimal supervised process: running, healthy counters, pid 7, no
watch, no memory ceiling. -/
def procBase : Process :=
  { id := 0, pid := 7, shell_pid := none, env := [], name := "svc", path := "/srv",
    script := "run", restarts := 0, running := true,
    crash := { crashed := false, value := 0 },
    watch := { enabled := false, path := "", hash := "" },
    children := [], started := 0, max_memory := 0 }

/-- An OS view with an empty process table in which a respawn would
succeed with payload pid 9. -/
def sysDead : Sys :=
  { procExists := fun _ => false, zombie := fun _ => false,
    groupAlive := fun _ => false, childrenOf := fun _ => [],
    memOf := fun _ => none, hashOf := fun _ => "", now := 5000,
    setCwdOk := true, runResult := some (9, none), sysEnv := [],
    dotenvAt := fun _ => [] }

/-- A local registry holding `procBase` at id 0. -/
def regBase : Runner := { id := 1, remote := none, list := [(0, procBase)] }

/-! ## C1 — supervisor crash handling -/

/-- C1, counterexample.  The claim says the tick that detects a fresh
crash performs a crash-restart (dead=true) within that same tick when
the new `crash.value ≤ max_restarts`.  At `regBase`/`sysDead` with
`max_restarts = 10`, pid 7 is dead, `crash.value` becomes `1 ≤ 10`, and
a restart would have set `restarts := 1` and `pid := 9`
(`sysDead.runResult`) — but the tick only latches
`crashed := true`, zeroes the pid, and saves: the action trace is
`[save]` with no restart call, `restarts` stays 0 and `pid` stays 0. -/
theorem C1_counterexample :
    (tickProcess sysDead 10 regBase 0).2 = [Action.save] ∧
    mapLookup (tickProcess sysDead 10 regBase 0).1.list 0 =
      some { procBase with pid := 0, crash := { crashed := true, value := 1 } } ∧
    (1 : Nat) ≤ 10 := by
  refine ⟨by decide, by decide, by decide⟩

/-- C1 (amended): on the tick that detects a fresh crash
(`running ∧ ¬alive ∧ ¬crashed`, children reconciled, no memory ceiling,
no watch), the supervisor increments `crash.value` by exactly 1, latches
`crashed := true`, leaves `restarts` untouched, persists, and performs
no restart in that tick; it sets `running := false` exactly when the new
count exceeds `max_restarts`.  The crash-restart (`dead = true`) is
performed on a subsequent tick, when the process is found dead and
already flagged `crashed` — that tick calls `restart(id, dead=true)`,
incrementing `restarts`, and persists.  The `crashed` latch makes the
increment happen exactly once per detected crash event. -/
theorem C1_crash_handling (sys : Sys) (cfg : Nat) (r : Runner) (id : Nat) (p : Process)
    (hrem : r.remote = none)
    (hp : mapLookup r.list id = some p)
    (hrun : p.running = true)
    (halive : is_pid_alive sys p.pid = false)
    (hch : sys.childrenOf p.pid = p.children)
    (hmem : p.max_memory = 0)
    (hw : p.watch.enabled = false) :
    (p.crash.crashed = false →
      ∃ p', mapLookup (tickProcess sys cfg r id).1.list id = some p' ∧
        p'.crash.value = (p.crash.value + 1) % U64 ∧
        p'.crash.crashed = true ∧
        p'.restarts = p.restarts ∧
        p'.running = (if cfg < (p.crash.value + 1) % U64 then false else true) ∧
        (tickProcess sys cfg r id).2 = [Action.save]) ∧
    (p.crash.crashed = true →
      ∃ p', mapLookup (tickProcess sys cfg r id).1.list id = some p' ∧
        p'.restarts = (p.restarts + 1) % U64 ∧
        (tickProcess sys cfg r id).2 = [Action.restartCall true, Action.save]) := by
  constructor
  · intro hcr
    obtain ⟨p', h1, h2, h3, h4, _, h6, _, _, _, h10⟩ :=
      tick_crash_detect sys cfg r id p hp hrun hcr halive hch hmem hw
    exact ⟨p', h1, h2, h3, h4, h6, h10⟩
  · intro hcr
    exact tick_crash_retry sys cfg r id p hrem hp hrun hcr halive hch hmem hw

/-- C1, witness: the amended theorem applied to the concrete crash at
`regBase`/`sysDead`. -/
theorem C1_crash_handling_witness :
    ∃ p', mapLookup (tickProcess sysDead 10 regBase 0).1.list 0 = some p' ∧
      p'.crash.value = (procBase.crash.value + 1) % U64 ∧
      p'.crash.crashed = true ∧
      p'.restarts = procBase.restarts ∧
      p'.running = (if 10 < (procBase.crash.value + 1) % U64 then false else true) ∧
      (tickProcess sysDead 10 regBase 0).2 = [Action.save] :=
  (C1_crash_handling sysDead 10 regBase 0 procBase rfl rfl rfl (by decide)
    rfl rfl rfl).1 rfl

/-! ## C2 — give-up is durable -/

/-- C2: once the freshly incremented crash count exceeds `max_restarts`,
the give-up tick sets `running := false`, keeps the incremented
`crash.value` for history, keeps the process in the registry, and
persists without restarting; and a process with `running = false` is
inert — on every further tick (`tickIter`, any OS behaviour) it stays in
the registry with `running = false`, is never restarted or stopped, and
`restarts` and the whole `crash` record never change. -/
theorem C2_giveup_durable (sys : Sys) (cfg : Nat) (r : Runner) (id : Nat) (p : Process)
    (hp : mapLookup r.list id = some p) :
    (p.running = true → p.crash.crashed = false →
     is_pid_alive sys p.pid = false →
     sys.childrenOf p.pid = p.children → p.max_memory = 0 →
     p.watch.enabled = false → cfg < (p.crash.value + 1) % U64 →
      ∃ p', mapLookup (tickProcess sys cfg r id).1.list id = some p' ∧
        p'.running = false ∧
        p'.crash.value = (p.crash.value + 1) % U64 ∧
        p'.restarts = p.restarts ∧
        (tickProcess sys cfg r id).2 = [Action.save]) ∧
    (p.running = false →
      ∃ p', mapLookup (tickProcess sys cfg r id).1.list id = some p' ∧
        p'.running = false ∧ p'.restarts = p.restarts ∧ p'.crash = p.crash ∧
        ∀ a ∈ (tickProcess sys cfg r id).2, a = Action.save) ∧
    (p.running = false → ∀ n,
      ∃ p', mapLookup (tickIter sys cfg id n r).list id = some p' ∧
        p'.running = false ∧ p'.restarts = p.restarts ∧ p'.crash = p.crash) := by
  refine ⟨?_, ?_, ?_⟩
  · intro hrun hcr halive hch hmem hw hcfg
    obtain ⟨p', h1, h2, _, h4, _, h6, _, _, _, h10⟩ :=
      tick_crash_detect sys cfg r id p hp hrun hcr halive hch hmem hw
    rw [if_pos hcfg] at h6
    exact ⟨p', h1, h6, h2, h4, h10⟩
  · intro hrun
    obtain ⟨p', h1, h2, h3, h4, _, _, h7⟩ := tick_stopped sys cfg r id p hp hrun
    exact ⟨p', h1, h4, h2, h3, h7⟩
  · intro hrun n
    exact tickIter_stopped sys cfg id n r p hp hrun

/-- `procBase` after the supervisor gave up on it: dead pid zeroed,
`running = false`, crash latched with count 1. -/
def stoppedProc : Process :=
  { procBase with
    pid := 0, running := false,
    crash := { crashed := true, value := 1 } }

/-- A local registry holding the given-up process. -/
def stoppedReg : Runner := { id := 1, remote := none, list := [(0, stoppedProc)] }

/-- C2, witness: give-up at `regBase`/`sysDead` with `max_restarts = 0`
(the fresh count 1 exceeds 0), followed by three inert cycles on the
resulting stopped process. -/
theorem C2_giveup_durable_witness :
    (∃ p', mapLookup (tickProcess sysDead 0 regBase 0).1.list 0 = some p' ∧
      p'.running = false ∧
      p'.crash.value = (procBase.crash.value + 1) % U64 ∧
      p'.restarts = procBase.restarts ∧
      (tickProcess sysDead 0 regBase 0).2 = [Action.save]) ∧
    (∃ p', mapLookup (tickIter sysDead 0 0 3 stoppedReg).list 0 = some p' ∧
      p'.running = false ∧ p'.restarts = stoppedProc.restarts ∧
      p'.crash = stoppedProc.crash) :=
  ⟨(C2_giveup_durable sysDead 0 regBase 0 procBase rfl).1 rfl rfl (by decide)
      rfl rfl rfl (by decide),
   (C2_giveup_durable sysDead 0 stoppedReg 0 stoppedProc rfl).2.2 rfl 3⟩

/-! ## C3 — restart counter and postconditions -/

/-- C3: for an existing id on a local registry, `restart(id, dead)`
increments `restarts` (mod `2^64`) in every outcome, so the counter
reflects the attempt even when the respawn fails; when changing into the
working directory or spawning fails, the postcondition is
`running = false`, `children = []`, `crashed = true`, with `crash.value`
incremented by 1 exactly when `dead`; on success the new pids are
installed, `running = true`, `started = now`, `crashed = false`, and
`crash.value` is zeroed exactly when `¬dead`. -/
theorem C3_restart_postconditions (sys : Sys) (r : Runner) (id : Nat) (p : Process)
    (dead : Bool) (hrem : r.remote = none) (hp : mapLookup r.list id = some p) :
    ∃ r' p', r.restart sys id dead = some r' ∧
      mapLookup r'.list id = some p' ∧
      p'.restarts = (p.restarts + 1) % U64 ∧
      ((sys.setCwdOk = false ∨ sys.runResult = none) →
        p'.running = false ∧ p'.children = [] ∧ p'.crash.crashed = true ∧
        p'.crash.value = (if dead then (p.crash.value + 1) % U64 else p.crash.value)) ∧
      (∀ npid spid, sys.setCwdOk = true → sys.runResult = some (npid, spid) →
        p'.running = true ∧ p'.started = sys.now ∧ p'.crash.crashed = false ∧
        p'.pid = npid ∧ p'.shell_pid = spid ∧
        p'.crash.value = (if dead then p.crash.value else 0)) := by
  cases hsc : sys.setCwdOk <;>
    rcases hrr : sys.runResult with - | ⟨a, b⟩ <;>
      simp [Runner.restart, hrem, hp, hsc, hrr, mapLookup_insert_self]

/-- C3, witness: a restart with `dead = true` at `regBase` under
`sysDead` (cwd ok, spawn succeeds with pid 9). -/
theorem C3_restart_postconditions_witness :
    ∃ r' p', regBase.restart sysDead 0 true = some r' ∧
      mapLookup r'.list 0 = some p' ∧
      p'.restarts = (procBase.restarts + 1) % U64 ∧
      ((sysDead.setCwdOk = false ∨ sysDead.runResult = none) →
        p'.running = false ∧ p'.children = [] ∧ p'.crash.crashed = true ∧
        p'.crash.value = (if true then (procBase.crash.value + 1) % U64
                          else procBase.crash.value)) ∧
      (∀ npid spid, sysDead.setCwdOk = true → sysDead.runResult = some (npid, spid) →
        p'.running = true ∧ p'.started = sysDead.now ∧ p'.crash.crashed = false ∧
        p'.pid = npid ∧ p'.shell_pid = spid ∧
        p'.crash.value = (if true then procBase.crash.value else 0)) :=
  C3_restart_postconditions sysDead regBase 0 procBase true rfl rfl

/-! ## C4 — stop postcondition -/

/-- C4: for an existing id on a local registry, after `stop` the process
satisfies `running = false`, `crashed = false`, `crash.value = 0`,
`children = []`, and the stored `pid` (as well as `restarts`, the env
overlay and the name) keeps its previous value. -/
theorem C4_stop_postconditions (r : Runner) (id : Nat) (p : Process)
    (hrem : r.remote = none) (hp : mapLookup r.list id = some p) :
    ∃ r' p', r.stop id = some r' ∧ mapLookup r'.list id = some p' ∧
      p'.running = false ∧ p'.crash.crashed = false ∧ p'.crash.value = 0 ∧
      p'.children = [] ∧ p'.pid = p.pid ∧ p'.restarts = p.restarts ∧
      p'.env = p.env ∧ p'.name = p.name := by
  simp [Runner.stop, hrem, hp, mapLookup_insert_self]

/-- C4, witness: stopping `procBase` (pid 7) at `regBase` keeps pid 7
stored. -/
theorem C4_stop_postconditions_witness :
    ∃ r' p', regBase.stop 0 = some r' ∧ mapLookup r'.list 0 = some p' ∧
      p'.running = false ∧ p'.crash.crashed = false ∧ p'.crash.value = 0 ∧
      p'.children = [] ∧ p'.pid = procBase.pid ∧ p'.restarts = procBase.restarts ∧
      p'.env = procBase.env ∧ p'.name = procBase.name :=
  C4_stop_postconditions regBase 0 procBase rfl rfl

/-! ## C5 — memory enforcement -/

/-- A running process with a 1-byte memory ceiling, pid 3, and a crash
history of 5. -/
def procMem : Process :=
  { procBase with
    pid := 3, max_memory := 1,
    crash := { crashed := false, value := 5 } }

/-- An OS view where pid 3 exists and its tree uses 2 bytes of rss. -/
def sysMem : Sys :=
  { sysDead with
    procExists := fun q => decide (q = 3),
    memOf := fun q => if q = 3 then some (2, 0) else none }

/-- A local registry holding `procMem` at id 0. -/
def regMem : Runner := { id := 1, remote := none, list := [(0, procMem)] }

/-- C5, counterexample.  The claim says a memory-triggered shutdown
leaves `crash.value` unchanged.  At `regMem`/`sysMem` the tree rss (2)
exceeds `max_memory` (1); the tick stops the process via
`Runner::stop`, whose postcondition zeroes `crash.value` — the stored
count goes from 5 to 0, not 5. -/
theorem C5_counterexample :
    procMem.crash.value = 5 ∧
    mapLookup (tickProcess sysMem 10 regMem 0).1.list 0 =
      some { procMem with
             running := false, children := [],
             crash := { crashed := false, value := 0 } } ∧
    (5 : Nat) ≠ 0 := by
  refine ⟨rfl, by decide, by decide⟩

/-- C5 (amended): for a running process with `max_memory > 0` whose
aggregate tree rss exceeds the ceiling, the tick stops it: afterwards
`running = false`, the `crashed` flag is not set (it is `false`),
`children = []`, the stored pid and `restarts` are untouched, and
`crash.value` is reset to 0 by the stop (the stop postcondition), not
incremented; the tick performs a stop and no restart, so the shutdown
is not counted as a crash. -/
theorem C5_memory_enforcement (sys : Sys) (cfg : Nat) (r : Runner) (id : Nat)
    (p : Process) (mi : MemoryInfo)
    (hrem : r.remote = none)
    (hp : mapLookup r.list id = some p)
    (hrun : p.running = true) (hmm : 0 < p.max_memory)
    (hmi : get_process_memory_with_children sys (p.shell_pid.getD p.pid) = some mi)
    (hrss : p.max_memory < mi.rss) :
    ∃ p', mapLookup (tickProcess sys cfg r id).1.list id = some p' ∧
      p'.running = false ∧ p'.crash.crashed = false ∧ p'.crash.value = 0 ∧
      p'.children = [] ∧ p'.pid = p.pid ∧ p'.restarts = p.restarts ∧
      p'.env = p.env ∧
      Action.stopCall ∈ (tickProcess sys cfg r id).2 ∧
      ∀ d, Action.restartCall d ∉ (tickProcess sys cfg r id).2 :=
  tick_memstop sys cfg r id p mi hrem hp hrun hmm hmi hrss

/-- C5, witness: the amended theorem at the concrete overrun
`regMem`/`sysMem`. -/
theorem C5_memory_enforcement_witness :
    ∃ p', mapLookup (tickProcess sysMem 10 regMem 0).1.list 0 = some p' ∧
      p'.running = false ∧ p'.crash.crashed = false ∧ p'.crash.value = 0 ∧
      p'.children = [] ∧ p'.pid = procMem.pid ∧ p'.restarts = procMem.restarts ∧
      p'.env = procMem.env ∧
      Action.stopCall ∈ (tickProcess sysMem 10 regMem 0).2 ∧
      ∀ d, Action.restartCall d ∉ (tickProcess sysMem 10 regMem 0).2 :=
  C5_memory_enforcement sysMem 10 regMem 0 procMem { rss := 2, vms := 0 }
    rfl rfl rfl (by decide) (by decide) (by decide)

/-! ## C6 — the liveness probe -/

/-- An OS view whose process table holds exactly one entry, the zombie
pid 5. -/
def sysZombie : Sys :=
  { sysDead with
    procExists := fun q => decide (q = 5),
    zombie := fun q => decide (q = 5) }

/-- C6: the claim (and the source's own comments — daemon/mod.rs line
147 says `is_pid_alive() handles all PID validation (including
PID <= 0)`, and `is_process_zombie`'s doc says zombies count as dead)
require the probe to return `false` for `pid ≤ 0` and for zombies.  The
shipped `is_pid_alive` is a bare `kill(pid, 0) == 0`: probing pid 0
signals the daemon's own process group and succeeds, probing `-1`
succeeds, and a zombie stays in the process table so its probe succeeds
— all three return `true` where the claimed predicate
(`pid > 0 ∧ exists ∧ ¬zombie`) says `false`.  `is_process_zombie`
exists but is called from nowhere outside its unit tests.  Pid 0 is the
reachable state the supervisor itself creates when it zeroes a crashed
process's pid. -/
theorem C6_liveness_probe_bug :
    is_pid_alive sysZombie 0 = true ∧
    is_pid_alive sysZombie (-1) = true ∧
    is_pid_alive sysZombie 5 = true ∧
    is_process_zombie sysZombie 5 = true ∧
    spec_alive sysZombie 0 = false ∧
    spec_alive sysZombie (-1) = false ∧
    spec_alive sysZombie 5 = false := by
  decide

/-! ## C7 — `list`/`fetch` status projection -/

/-- C7: for every entry of a registry, the fetched item's status is
`"online"` iff `running ∧ is_pid_alive(pid)`; otherwise it is
`"crashed"` (when `running` with a dead pid, or when the `crashed` flag
is set) or `"stopped"`; the uptime string is `"0s"` whenever the status
is not `"online"`; and the item produced for the entry is indeed among
`Runner::fetch`'s results. -/
theorem C7_fetch_projection (sys : Sys) (r : Runner) (i : Nat) (p : Process)
    (h : (i, p) ∈ r.list) :
    ((fetchItem sys i p).status = "online" ↔
      (p.running = true ∧ is_pid_alive sys p.pid = true)) ∧
    ((fetchItem sys i p).status ≠ "online" →
      (fetchItem sys i p).uptime = "0s") ∧
    ((fetchItem sys i p).status ≠ "online" →
      (fetchItem sys i p).status =
        (if p.running then "crashed"
         else if p.crash.crashed then "crashed" else "stopped")) ∧
    ((fetchItem sys i p).status = "online" ∨
     (fetchItem sys i p).status = "crashed" ∨
     (fetchItem sys i p).status = "stopped") ∧
    fetchItem sys i p ∈ r.fetch sys := by
  have hmem : fetchItem sys i p ∈ r.fetch sys := by
    have hm := List.mem_map_of_mem (fun x : Nat × Process => fetchItem sys x.1 x.2) h
    simpa [Runner.fetch] using hm
  refine ⟨?_, ?_, ?_, ?_, hmem⟩ <;>
    cases hr : p.running <;> cases ha : is_pid_alive sys p.pid <;>
      cases hc : p.crash.crashed <;>
        simp [fetchItem, hr, ha, hc]

/-- C7, witness: the projection at the single-entry registry `regBase`
under `sysDead` (pid 7 dead while `running`, hence `"crashed"` with
uptime `"0s"`). -/
theorem C7_fetch_projection_witness :
    (((fetchItem sysDead 0 procBase).status = "online" ↔
      (procBase.running = true ∧ is_pid_alive sysDead procBase.pid = true)) ∧
     ((fetchItem sysDead 0 procBase).status ≠ "online" →
      (fetchItem sysDead 0 procBase).uptime = "0s")) ∧
    (fetchItem sysDead 0 procBase).status = "crashed" ∧
    (fetchItem sysDead 0 procBase).uptime = "0s" ∧
    fetchItem sysDead 0 procBase ∈ regBase.fetch sysDead :=
  ⟨⟨(C7_fetch_projection sysDead regBase 0 procBase (by decide)).1,
    (C7_fetch_projection sysDead regBase 0 procBase (by decide)).2.1⟩,
   by decide, by decide, by decide⟩

/-! ## C8 — dump store round-trip and corruption recovery -/

/-- A runner attached to a remote peer; its `remote` handle is
`#[serde(skip)]` and vanishes on the round trip. -/
def remoteRunner : Runner :=
  { id := 0, remote := some { address := "http://peer", token := none }, list := [] }

/-- An empty filesystem slice. -/
def fsEmpty : FS := { dump := none, backups := [] }

/-- A filesystem slice whose dump file fails to parse. -/
def fsCorrupt : FS := { dump := some DumpFile.corrupt, backups := [] }

/-- C8, counterexample.  The claim quantifies over *every* registry:
for a runner carrying a remote-peer handle, reading back the written
dump yields a runner whose `remote` is `None` (the field is
`#[serde(skip)]`), which differs from the original. -/
theorem C8_counterexample :
    (dump_read (dump_write remoteRunner fsEmpty) "20250101" true true).1
      ≠ remoteRunner := by
  decide

/-- C8 (amended): for every registry with no remote attachment
(`remote = None` — the serde-skipped runtime handle), reading
immediately after `write` returns that registry and leaves the
filesystem as written; and when the dump file exists but fails to
parse, `read` quarantines it as `<dump>.corrupted.<timestamp>` (by
rename, or by copy-then-delete when rename fails), returns the fresh
empty registry, and writes it back to disk — and even when both backup
paths fail the result is still the fresh empty registry written back. -/
theorem C8_roundtrip_and_recovery (r : Runner) (fs : FS) (ts : String) (ro co : Bool)
    (hrem : r.remote = none) :
    (dump_read (dump_write r fs) ts ro co = (r, dump_write r fs)) ∧
    (fs.dump = some DumpFile.corrupt → (ro = true ∨ co = true) →
      dump_read fs ts ro co =
        (freshRunner,
         { dump := some (DumpFile.data 0 []),
           backups := (dumpPath ++ ".corrupted." ++ ts, DumpFile.corrupt)
             :: fs.backups })) ∧
    (fs.dump = some DumpFile.corrupt →
      (dump_read fs ts ro co).1 = freshRunner ∧
      (dump_read fs ts ro co).2.dump = some (DumpFile.data 0 [])) := by
  obtain ⟨rid, rrem, rlist⟩ := r
  change rrem = none at hrem
  subst hrem
  refine ⟨by simp [dump_read, dump_write], ?_, ?_⟩
  · intro hcorr hroc
    obtain ⟨d, bks⟩ := fs
    change d = some DumpFile.corrupt at hcorr
    subst hcorr
    cases ro <;> cases co <;>
      simp_all [dump_read, dump_write, freshRunner]
  · intro hcorr
    obtain ⟨d, bks⟩ := fs
    change d = some DumpFile.corrupt at hcorr
    subst hcorr
    cases ro <;> cases co <;>
      simp [dump_read, dump_write, freshRunner]

/-- C8, witness: the round trip on the local single-entry registry
`regBase`, and the corruption recovery on `fsCorrupt` with a failing
rename and a succeeding copy-then-delete. -/
theorem C8_roundtrip_and_recovery_witness :
    (dump_read (dump_write regBase fsEmpty) "20250101" true true
      = (regBase, dump_write regBase fsEmpty)) ∧
    dump_read fsCorrupt "20250101" false true =
      (freshRunner,
       { dump := some (DumpFile.data 0 []),
         backups := (dumpPath ++ ".corrupted." ++ "20250101", DumpFile.corrupt)
           :: fsCorrupt.backups }) :=
  ⟨(C8_roundtrip_and_recovery regBase fsEmpty "20250101" true true rfl).1,
   (C8_roundtrip_and_recovery regBase fsCorrupt "20250101" false true rfl).2.1
     rfl (Or.inr rfl)⟩

/-! ## C9 — agent heartbeat protocol -/

/-- A registered agent. -/
def agentA : AgentInfo :=
  { id := "a", name := "agent-a", hostname := none, status := AgentStatus.Online,
    connection_type := ConnectionType.In, last_seen := 0, connected_at := 0,
    api_endpoint := none }

/-- The server-side registry after `agentA`'s successful `Register`. -/
def regAgents : AgentReg := register [] agentA

/-- C9: after a successful `Register`, a `Heartbeat` with the known id
`"a"` stamps that agent's `last_seen` to the current time and is
answered `Response{success=true}` without closing; a `Heartbeat` with
the unknown id `"b"` is answered `Response{success=false}` whose message
contains `"not found"`, and the channel is closed.  The final conjunct
shows the part of the claim the source breaks: `update_heartbeat` as
written in registry.rs returns `()` — on an unknown id it just returns
the registry unchanged and reports nothing, even though
websocket.rs line 109 branches on its result as a `bool`. -/
theorem C9_heartbeat_protocol :
    (handleHeartbeat regAgents "a" 42).2.1.success = true ∧
    (handleHeartbeat regAgents "a" 42).2.2 = false ∧
    mapLookup (handleHeartbeat regAgents "a" 42).1 "a" =
      some { agentA with last_seen := 42 } ∧
    (handleHeartbeat regAgents "b" 42).2.1.success = false ∧
    (handleHeartbeat regAgents "b" 42).2.2 = true ∧
    hasSubstring (handleHeartbeat regAgents "b" 42).2.1.message "not found" ∧
    update_heartbeat regAgents "b" 42 = regAgents := by
  refine ⟨by decide, by decide, by decide, by decide, by decide,
    ⟨"Agent ", "", by decide⟩, by decide⟩

/-! ## C10 — `set_env` merges, `clear_env` empties -/

/-- C10: for an existing id, `set_env(id, E)` merges: every key of `E`
ends up with `E`'s value, every key absent from `E` keeps its previous
value, and no key is ever removed; `clear_env(id)` on the result empties
the overlay to the empty map. -/
theorem C10_set_env_merges (r : Runner) (id : Nat) (p : Process)
    (E : List (String × String)) (k : String)
    (hrem : r.remote = none)
    (hp : mapLookup r.list id = some p)
    (hE : (E.map Prod.fst).Nodup) :
    ∃ r' p', r.set_env id E = some r' ∧ mapLookup r'.list id = some p' ∧
      p'.env = mapExtend p.env E ∧
      (∀ v, mapLookup E k = some v → mapLookup p'.env k = some v) ∧
      (mapLookup E k = none → mapLookup p'.env k = mapLookup p.env k) ∧
      ((mapLookup p.env k).isSome → (mapLookup p'.env k).isSome) ∧
      (∀ r'', r'.clear_env id = some r'' →
        ∀ q, mapLookup r''.list id = some q → q.env = []) := by
  refine ⟨{ r with list := mapInsert r.list id { p with env := mapExtend p.env E } },
    { p with env := mapExtend p.env E },
    by simp [Runner.set_env, hp], mapLookup_insert_self _ _ _, rfl, ?_, ?_, ?_, ?_⟩
  · exact fun v hv => mapLookup_extend_of_some p.env E k v hE hv
  · exact fun hn => mapLookup_extend_of_none p.env E k hn
  · exact fun hs => mapLookup_extend_isSome p.env E k hs
  · intro r'' hcl q hq
    simp only [Runner.clear_env, hrem, mapLookup_insert_self,
      Option.some.injEq] at hcl
    subst hcl
    simp only [mapLookup_insert_self, Option.some.injEq] at hq
    subst hq
    rfl

/-- A process whose stored overlay maps `A` to `1`. -/
def procEnv : Process := { procBase with env := [("A", "1")] }

/-- A local registry holding `procEnv` at id 0. -/
def envReg : Runner := { id := 1, remote := none, list := [(0, procEnv)] }

/-- C10, witness: merging `[("B", "2")]` into an overlay `[("A", "1")]`
keeps `A`, sets `B`, and a subsequent `clear_env` empties the overlay. -/
theorem C10_set_env_merges_witness :
    ∃ r' p', envReg.set_env 0 [("B", "2")] = some r' ∧
      mapLookup r'.list 0 = some p' ∧
      p'.env = mapExtend procEnv.env [("B", "2")] ∧
      (∀ v, mapLookup [("B", "2")] "A" = some v → mapLookup p'.env "A" = some v) ∧
      (mapLookup [("B", "2")] "A" = none →
        mapLookup p'.env "A" = mapLookup procEnv.env "A") ∧
      ((mapLookup procEnv.env "A").isSome → (mapLookup p'.env "A").isSome) ∧
      (∀ r'', r'.clear_env 0 = some r'' →
        ∀ q, mapLookup r''.list 0 = some q → q.env = []) :=
  C10_set_env_merges envReg 0 procEnv [("B", "2")] "A" rfl rfl (by decide)

end Opm
